import Mathlib

/-!
Verification development for the ocr_spot job-ledger coordination code.

The DynamoDB table of the repository uses the composite primary key
`(input_path, ocr_done)`: the status value `ocr_done` is part of the key, so
every status change in the source is performed as a `delete_item` of the old
key followed by a `put_item` under the new key.  We embed the table as a list
of items and the store primitives `get_item` / `put_item` / `delete_item`
with their DynamoDB semantics (put overwrites the record with the same full
key, delete of an absent key is a silent no-op).

The status strings written by the source are "false" (pending), "in_process"
(claimed), "true" (done) and "error" (failed).  `odoo_loaded` is the opaque
downstream flag; `output_path` is the optional output reference.
-/

namespace OcrSpot

/-- One DynamoDB record of the ledger, with the attributes the source reads
and writes: the key pair `input_path`/`ocr_done`, the optional `output_path`
and the downstream flag `odoo_loaded`. -/
structure Item where
  input_path : String
  ocr_done : String
  output_path : Option String
  odoo_loaded : String
deriving DecidableEq, Repr

/-- The ledger: the list of records currently present in the table. -/
abbrev Table := List Item

/-- Does `x` carry the full primary key `(ip, od)`? -/
def keyMatch (ip od : String) (x : Item) : Bool :=
  x.input_path == ip && x.ocr_done == od

/-- Embeds `table.delete_item(Key={input_path: ip, ocr_done: od})`: removes the
record with that full key; silently a no-op when no such record exists. -/
def delete_item (t : Table) (ip od : String) : Table :=
  t.filter (fun x => !keyMatch ip od x)

/-- Embeds `table.put_item(Item=x)`: overwrites any record with the same full key
and stores `x`. -/
def put_item (t : Table) (x : Item) : Table :=
  delete_item t x.input_path x.ocr_done ++ [x]

/-- Embeds `table.get_item(Key={input_path: ip, ocr_done: od})`. -/
def get_item (t : Table) (ip od : String) : Option Item :=
  t.find? (keyMatch ip od)

/-- All records of the ledger holding the given `input_path`, whatever their
status key. -/
def records_for (t : Table) (ip : String) : Table :=
  t.filter (fun x => x.input_path == ip)

/-- How many records the ledger holds for one `input_path`. -/
def record_count (t : Table) (ip : String) : Nat :=
  (records_for t ip).length

/-! ## Claim — `PDFDownloader.get_available_pdf`

The scan in `get_available_pdf` uses
`ProjectionExpression = 'input_path, ocr_done, odoo_loaded'`; the scanned
items therefore never carry `output_path`, so the
`if 'output_path' in pdf_item` branch of the source can never run and the
reinserted record has no `output_path`. -/

/-- A record as returned by the claim scan's projection
(`input_path, ocr_done, odoo_loaded`). -/
structure ScanItem where
  input_path : String
  ocr_done : String
  odoo_loaded : String
deriving DecidableEq, Repr

/-- The projection applied by the claim scan. -/
def project (x : Item) : ScanItem :=
  ⟨x.input_path, x.ocr_done, x.odoo_loaded⟩

/-- The claim scan: all records with `ocr_done = 'false'`, projected. -/
def scan_pending (t : Table) : List ScanItem :=
  (t.filter (fun x => x.ocr_done == "false")).map project

/-- The ledger state in the middle of a claim call: after
`delete_item(Key={input_path, ocr_done: 'false'})` and before the
`put_item` that reinserts the record under the `in_process` key. -/
def claim_mid (t : Table) (ip : String) : Table :=
  delete_item t ip "false"

/-- The full status change of `get_available_pdf` for the selected scan item:
delete the `'false'`-keyed record, then put a fresh `'in_process'` record.
The projection omits `output_path`, so the new record carries none. -/
def claim_update (t : Table) (s : ScanItem) : Table :=
  put_item (claim_mid t s.input_path)
    ⟨s.input_path, "in_process", none, s.odoo_loaded⟩

/-- Embeds `get_available_pdf`, with the random selection supplied as a choice
function over the scanned sample; returns the updated ledger and the
`input_path` handed to the worker (none when the sample is empty). -/
def get_available_pdf (t : Table) (pick : List ScanItem → Option ScanItem) :
    Table × Option String :=
  match pick (scan_pending t) with
  | none => (t, none)
  | some s => (claim_update t s, some s.input_path)

/-! ## Commit — `PDFUploader.update_dynamodb_success` /
`update_dynamodb_failure` and `PDFDownloader.revert_status`

All three perform an unconditional `delete_item` of the `in_process` key and
a `put_item` of the new record; `odoo_loaded` is written as `'false'` in the
new record, and only the success path stores an `output_path` (the one just
computed by the caller). -/

/-- Embeds `update_dynamodb_success`: delete the `in_process` record, insert a
`'true'` record that stores the freshly computed `output_path` and
`odoo_loaded = 'false'`. -/
def update_dynamodb_success (t : Table) (ip out : String) : Table :=
  put_item (delete_item t ip "in_process") ⟨ip, "true", some out, "false"⟩

/-- Embeds `update_dynamodb_failure`: delete the `in_process` record, insert a
`'false'` record (no `output_path`, `odoo_loaded = 'false'`). -/
def update_dynamodb_failure (t : Table) (ip : String) : Table :=
  put_item (delete_item t ip "in_process") ⟨ip, "false", none, "false"⟩

/-- Embeds `revert_status`: delete the `in_process` record and insert the record
under `'error'` (when an error occurred) or `'false'`, with no `output_path`
and `odoo_loaded = 'false'`. -/
def revert_status (t : Table) (ip : String) (error_occurred : Bool) : Table :=
  put_item (delete_item t ip "in_process")
    ⟨ip, if error_occurred then "error" else "false", none, "false"⟩

/-! ## Ingestion — `OCRSpotManager._ensure_dynamodb_entry` and
`generate_dynamodb_entries`

Both look an `input_path` up under the states `'false'`, `'in_process'` and
`'true'` (in that order; the `'error'` state is not in the list), create a
fresh pending record when none of the three lookups hits, and otherwise patch
only a missing `output_path` via `update_item` on the found record's key. -/

/-- The state list `states_to_check` of `_ensure_dynamodb_entry` (the same
three states are probed by `generate_dynamodb_entries`). -/
def states_to_check : List String := ["false", "in_process", "true"]

/-- The sequence of `get_item` probes: the first record found under one of
`states_to_check`. -/
def find_existing (t : Table) (ip : String) : Option Item :=
  (states_to_check.map (fun st => get_item t ip st)).foldr
    (fun r acc => r.orElse (fun _ => acc)) none

/-- Embeds `update_item(Key=k, UpdateExpression='SET output_path = :v')`: sets
`output_path` on the record with key `k`, touching nothing else. -/
def update_item_output (t : Table) (ip od out : String) : Table :=
  t.map (fun x => if keyMatch ip od x then { x with output_path := some out } else x)

/-- Embeds `_ensure_dynamodb_entry(input_s3_path, output_s3_path)`: create the
record as pending when none of the three probed states holds it; when it is
found and lacks `output_path` while one was supplied, patch only
`output_path`; otherwise leave the table unchanged. -/
def ensure_dynamodb_entry (t : Table) (ip : String) (out : Option String) : Table :=
  match find_existing t ip with
  | none =>
      put_item t ⟨ip, "false", out, "false"⟩
  | some x =>
      match out, x.output_path with
      | some o, none => update_item_output t ip x.ocr_done o
      | _, _ => t

/-- The per-path body of `generate_dynamodb_entries`: identical probing; the
`output_path` is always computed, so the create and patch branches always
carry one. -/
def generate_dynamodb_entry (t : Table) (ip out : String) : Table :=
  match find_existing t ip with
  | none => put_item t ⟨ip, "false", some out, "false"⟩
  | some x =>
      match x.output_path with
      | none => update_item_output t ip x.ocr_done out
      | some _ => t

/-- Embeds the catalog walk of `generate_dynamodb_entries`: fold the per-pair
ingestion over the catalog of `(input_path, output_path)` pairs. -/
def ingest_catalog (t : Table) (catalog : List (String × String)) : Table :=
  catalog.foldl (fun acc p => generate_dynamodb_entry acc p.1 p.2) t

/-! ## Reset — `OCRSpotManager.reset_ocr_done_status`

The scan filters `ocr_done = 'in_process'` only; there is no timestamp
attribute anywhere in the repository and no staleness comparison: every
scanned record is deleted under the `in_process` key and reinserted as
pending, keeping `odoo_loaded` (`item.get('odoo_loaded', 'false')`) but
without `output_path` (the reinserted item names only the three attributes).
-/

/-- The reset scan: every record currently `in_process`, in table order. -/
def scan_in_process (t : Table) : List Item :=
  t.filter (fun x => x.ocr_done == "in_process")

/-- One iteration of the reset loop: delete the `in_process` record of the
scanned item and reinsert it under the `'false'` key, with its `odoo_loaded`
and no `output_path`. -/
def reset_step (acc : Table) (x : Item) : Table :=
  put_item (delete_item acc x.input_path "in_process")
    ⟨x.input_path, "false", none, x.odoo_loaded⟩

/-- Embeds `reset_ocr_done_status`: apply `reset_step` to every scanned
`in_process` record. -/
def reset_ocr_done_status (t : Table) : Table :=
  (scan_in_process t).foldl reset_step t

/-- Modelled from the spec: `Reset(stale_before)` as §4.3 words it, for a
given staleness classification of each record — move back to Pending exactly
the Claimed records classified stale, leave every other record unchanged.
The source stores no `claimed_at`, so the classification is a parameter
here; the code under `src/` remains the authority for what Reset does. -/
def resetSpec (stale : Item → Bool) (t : Table) : Table :=
  t.map (fun x =>
    if x.ocr_done == "in_process" && stale x then
      { x with ocr_done := "false" }
    else x)

/-! ## Milestones — `OCROrchestrator.check_and_send_milestone_email`

The constructor's dictionary literal
`{100: False, 20: False, 40: False, 80: False, 100: False}` repeats the key
`100`, so the dictionary holds the four keys `100, 20, 40, 80`: the
absolute 100-records milestone and the 100% milestone share the single flag
`milestones_sent[100]`.  There is no 50 entry.  The percent value is
`int((completed / total) * 100)`, modelled as truncating natural division. -/

/-- The `milestones_sent` dictionary: one flag per key `100, 20, 40, 80`
(`sent100` is shared by the absolute 100-records check and the 100% check).
-/
structure MilestoneFlags where
  sent100 : Bool
  sent20 : Bool
  sent40 : Bool
  sent80 : Bool
deriving DecidableEq, Repr

/-- Value of `milestones_sent` as the constructor initializes it: all flags unset. -/
def initFlags : MilestoneFlags := ⟨false, false, false, false⟩

/-- One guarded firing: emit `msg` and set the flag when the condition holds
and the flag is still unset. -/
def fire_if (cond flag : Bool) (msg : String) : Bool × List String :=
  if cond && !flag then (true, [msg]) else (flag, [])

/-- Embeds `check_and_send_milestone_email` on one `(completed, total)` poll:
returns the updated flags and the notifications emitted, in source order
(absolute 100-records check first, then the 20/40/80/100 percent loop; the
percent-100 check reads the flag already updated by the absolute check). -/
def check_and_send_milestone_email (s : MilestoneFlags) (completed total : Nat) :
    MilestoneFlags × List String :=
  if total = 0 then (s, [])
  else
    let percent := completed * 100 / total
    let a := fire_if (decide (100 ≤ completed)) s.sent100 "milestone:100files"
    let m20 := fire_if (decide (20 ≤ percent)) s.sent20 "milestone:20pct"
    let m40 := fire_if (decide (40 ≤ percent)) s.sent40 "milestone:40pct"
    let m80 := fire_if (decide (80 ≤ percent)) s.sent80 "milestone:80pct"
    let m100 := fire_if (decide (100 ≤ percent)) a.1 "milestone:100pct"
    (⟨m100.1, m20.1, m40.1, m80.1⟩,
      a.2 ++ m20.2 ++ m40.2 ++ m80.2 ++ m100.2)

/-- A sequence of milestone polls within one process run: thread the flags
through `check_and_send_milestone_email` and collect every notification. -/
def run_polls (s : MilestoneFlags) : List (Nat × Nat) → MilestoneFlags × List String
  | [] => (s, [])
  | c :: rest =>
      let r := check_and_send_milestone_email s c.1 c.2
      let rr := run_polls r.1 rest
      (rr.1, r.2 ++ rr.2)

/-! ## The continuous loops — `OCROrchestrator.run_continuous_processing`
and `FullOCRProcessor.process_continuous`

`process_single_pdf` returns `True` (job committed), `None` (job-level
error; its own comment says the caller must continue with the next file) or
`False` (no job available).  We drive each loop by the trace of successive
`process_single_pdf` results.  `run_continuous_processing` additionally
polls `get_quick_pending_count` at iterations `i` with `i % 10 == 1 and
i > 1`, supplied here as an oracle from the iteration number; the
statistics/milestone block reads the table but does not affect loop
control, so it is not part of the loop state. -/

/-- One `process_single_pdf` result. -/
inductive JobResult where
  | success
  | jobError
  | noFiles
deriving DecidableEq, Repr

/-- Embeds `run_continuous_processing` (main_run.py): returns
`(processed_in_session, error_in_session)`.  `success` and `jobError` both
continue; three consecutive `noFiles` results stop the loop, as does a zero
quick-pending poll.  An exhausted trace ends the model run. -/
def run_continuous_processing (trace : List JobResult) (qp : Nat → Nat)
    (processed errors cnf iteration : Nat) : Nat × Nat :=
  match trace with
  | [] => (processed, errors)
  | r :: rest =>
      let it := iteration + 1
      if it % 10 = 1 ∧ 1 < it ∧ qp it = 0 then (processed, errors)
      else
        match r with
        | .success => run_continuous_processing rest qp (processed + 1) errors 0 it
        | .jobError => run_continuous_processing rest qp processed (errors + 1) 0 it
        | .noFiles =>
            if 3 ≤ cnf + 1 then (processed, errors)
            else run_continuous_processing rest qp processed errors (cnf + 1) it

/-- Embeds `process_continuous` (full_process.py): returns
`(processed_count, iteration)`.  The loop body runs
`success = self.process_single_pdf(language)` and then
`if success: ... else: break` — a `None` (job error) result is falsy, so it
breaks exactly like `False`.  `max_iterations = 0` is falsy in Python, so a
zero cap means no cap. -/
def process_continuous (trace : List JobResult) (maxIter : Option Nat)
    (processed iteration : Nat) : Nat × Nat :=
  match trace with
  | [] => (processed, iteration)
  | r :: rest =>
      if (maxIter.getD 0) ≠ 0 ∧ (maxIter.getD 0) ≤ iteration then
        (processed, iteration)
      else
        match r with
        | .success => process_continuous rest maxIter (processed + 1) (iteration + 1)
        | _ => (processed, iteration + 1)

/-! ## `OCRProcessor.apply_ocr`

The environment records which branch the call takes: whether the input file
exists, whether the filename marks it historic, the outcome of
`ocrmypdf.ocr`, and whether a `shutil.copy2` issued in a copy branch
succeeds.  A result of `none` models an exception propagating out of the
function (in the `PriorOcrFoundError` and `TaggedPDFError` handlers the
copy is not wrapped in a `try`, so a copy failure there raises); `some
(output_path, error_occurred)` models a normal return. -/

/-- The possible outcomes of the `ocrmypdf.ocr` call. -/
inductive OcrOutcome where
  | ok
  | priorOcrFound
  | taggedPdf
  | encryptedPdf
  | taggedMessageError
  | corruptError
  | otherError
deriving DecidableEq, Repr

/-- The branch-determining environment of one `apply_ocr` call. -/
structure OcrEnv where
  fileExists : Bool
  isHistoric : Bool
  copySucceeds : Bool
  outcome : OcrOutcome
deriving DecidableEq, Repr

/-- Embeds `os.path.basename`: the component after the last `/`. -/
def pyBasename (p : String) : String :=
  (p.splitOn "/").getLastD ""

/-- Embeds `os.path.splitext` on a plain file name: split at the last dot when one
is present (names consisting only of a leading-dot extension do not occur
here; every input is `*.pdf`). -/
def pySplitExt (name : String) : String × String :=
  let parts := name.splitOn "."
  if parts.length ≤ 1 then (name, "")
  else (String.intercalate "." parts.dropLast, "." ++ parts.getLastD "")

/-- The output path `apply_ocr` computes:
`os.path.join('pdfs_with_ocr', f"{name}_ocr{ext}")`. -/
def ocr_output_path (inputPath : String) : String :=
  let base := pyBasename inputPath
  let ne := pySplitExt base
  "pdfs_with_ocr/" ++ ne.1 ++ "_ocr" ++ ne.2

/-- Embeds `apply_ocr`: every return branch of the source, as a pair
`(output_path, error_occurred)`; `none` when an exception escapes. -/
def apply_ocr (env : OcrEnv) (inputPath : String) :
    Option (Option String × Bool) :=
  if !env.fileExists then some (none, true)
  else
    let out := ocr_output_path inputPath
    if env.isHistoric then
      if env.copySucceeds then some (some out, false) else some (none, true)
    else
      match env.outcome with
      | .ok => some (some out, false)
      | .priorOcrFound =>
          if env.copySucceeds then some (some out, false) else none
      | .taggedPdf =>
          if env.copySucceeds then some (some out, false) else none
      | .encryptedPdf => some (none, true)
      | .taggedMessageError =>
          if env.copySucceeds then some (some out, false) else some (none, true)
      | .corruptError => some (none, true)
      | .otherError => some (none, true)

/-! ## Store lemmas -/

theorem keyMatch_self (x : Item) : keyMatch x.input_path x.ocr_done x = true := by
  simp [keyMatch]

theorem mem_delete_item {x : Item} {t : Table} {ip od : String} :
    x ∈ delete_item t ip od ↔ x ∈ t ∧ keyMatch ip od x = false := by
  simp [delete_item, List.mem_filter]

theorem mem_put_item {x y : Item} {t : Table} :
    x ∈ put_item t y ↔
      (x ∈ t ∧ keyMatch y.input_path y.ocr_done x = false) ∨ x = y := by
  simp [put_item, mem_delete_item, List.mem_append]

theorem get_item_put_item_self (t : Table) (x : Item) :
    get_item (put_item t x) x.input_path x.ocr_done = some x := by
  unfold get_item put_item delete_item
  induction t with
  | nil => simp [List.find?, keyMatch_self]
  | cons y t ih =>
    by_cases hy : keyMatch x.input_path x.ocr_done y
    · simpa [List.filter_cons, hy] using ih
    · simpa [List.filter_cons, hy, List.find?] using ih

theorem records_for_filter (t : Table) (ip : String) (p : Item → Bool) :
    records_for (t.filter p) ip = (records_for t ip).filter p := by
  induction t with
  | nil => rfl
  | cons x t ih =>
    by_cases hp : p x <;> by_cases hm : (x.input_path == ip) <;>
      simp [records_for, List.filter_cons, hp, hm] at ih ⊢ <;> exact ih

theorem records_for_append (t u : Table) (ip : String) :
    records_for (t ++ u) ip = records_for t ip ++ records_for u ip := by
  simp [records_for, List.filter_append]

theorem records_for_delete_item (t : Table) (ki kd ip : String) :
    records_for (delete_item t ki kd) ip
      = (records_for t ip).filter (fun x => !keyMatch ki kd x) :=
  records_for_filter t ip _

/-! ## Example ledgers used in the concrete theorems -/

/-- A ledger holding a single pending record for `a`. -/
def tableA : Table := [⟨"a", "false", none, "false"⟩]

/-- A ledger holding a single failed record for `x` (status `'error'`). -/
def tableErr : Table := [⟨"x", "error", none, "false"⟩]

/-- A ledger holding a single claimed record for `a` whose `output_path` is
already set and whose downstream flag is `'true'`. -/
def tableClaimed : Table := [⟨"a", "in_process", some "old", "true"⟩]

/-- A ledger in which the record for `a` was concurrently reset back to
pending (so it is no longer claimed). -/
def tableResetBack : Table := [⟨"a", "false", some "p", "true"⟩]

/-! ## C1 — the claim transition -/

/-- C1 counterexample: with a single pending record for `"a"`, the ledger
state in the middle of the claim call — after the `delete_item` of the
`'false'` key and before the `put_item` of the `'in_process'` record —
holds zero records for the claimed `input_ref`, refuting the claim that at
every point during the call the ledger never holds zero records for it (and
with it the claim that the reservation is one atomic `ConditionalUpdate`).
-/
theorem c1_counterexample :
    record_count tableA "a" = 1 ∧ record_count (claim_mid tableA "a") "a" = 0 := by
  constructor <;> rfl

/-- C1 (amended): the reservation is an unconditional `delete_item` of the
pending-keyed record followed by a `put_item` under the `in_process` key;
between the two writes the ledger holds no record for the claimed
`input_ref`, and when the pending record was the only record for that
`input_ref` the completed call leaves again exactly one record — now
`in_process`, with no `output_path` because the scan projection omits it. -/
theorem c1_claim_delete_then_reinsert (t : Table) (ip dl : String) (o : Option String)
    (h : records_for t ip = [⟨ip, "false", o, dl⟩]) :
    records_for (claim_mid t ip) ip = [] ∧
    records_for (claim_update t ⟨ip, "false", dl⟩) ip
      = [⟨ip, "in_process", none, dl⟩] := by
  have hmid : records_for (delete_item t ip "false") ip = [] := by
    rw [records_for_delete_item, h]
    simp [keyMatch]
  constructor
  · exact hmid
  · show records_for (delete_item (delete_item t ip "false") ip "in_process"
        ++ [⟨ip, "in_process", none, dl⟩]) ip
      = [⟨ip, "in_process", none, dl⟩]
    rw [records_for_append, records_for_delete_item, hmid]
    simp [records_for]

/-- C1 witness: the amended statement evaluated on the one-record ledger
`tableA`. -/
theorem c1_witness :
    records_for (claim_mid tableA "a") "a" = [] ∧
    records_for (claim_update tableA ⟨"a", "false", "false"⟩) "a"
      = [⟨"a", "in_process", none, "false"⟩] :=
  c1_claim_delete_then_reinsert tableA "a" "false" none rfl

/-! ## C2 — at-most-one-claim under concurrency -/

/-- An interleaving two claim calls can take over the shared table: both
workers run their scans before either performs its writes (each scan and
each store write is individually atomic; nothing orders the two calls), and
each then executes the unconditional `delete_item` + `put_item`.  Taking
the head of the sample is one possible outcome of `random.choice`.  Returns
the final ledger and the two values returned to the workers. -/
def two_claims_interleaved (t0 : Table) : Table × Option String × Option String :=
  let w1 := get_available_pdf t0 List.head?
  match (scan_pending t0).head? with
  | none => (w1.1, w1.2, none)
  | some s => (claim_update w1.1 s, w1.2, some s.input_path)

/-- C2 counterexample: with exactly one pending record and two concurrent
claim calls, it is not the case that exactly one call returns that record:
in the scan-scan-write-write interleaving both calls return `"a"` (the
second `delete_item` is a silent no-op and its `put_item` succeeds), so the
at-most-one-claim property fails. -/
theorem c2_counterexample :
    ¬ ((((two_claims_interleaved tableA).2.1 = some "a") ∧
          ¬ ((two_claims_interleaved tableA).2.2 = some "a")) ∨
       (((two_claims_interleaved tableA).2.2 = some "a") ∧
          ¬ ((two_claims_interleaved tableA).2.1 = some "a"))) := by
  decide

/-- C2 (amended): because the reservation is two unconditional writes
rather than a conditional update, two concurrent claim calls that both
scanned before either wrote can both return the same pending record — both
workers then process the same job — while the final ledger still holds a
single `in_process` record for it. -/
theorem c2_both_claims_win :
    two_claims_interleaved tableA
      = ([⟨"a", "in_process", none, "false"⟩], some "a", some "a") := by
  decide

/-! ## C3 — ingestion idempotence -/

/-- C3: evaluating the ingestion code at the failing input.  The lookup
list `states_to_check` of `_ensure_dynamodb_entry` and
`generate_dynamodb_entries` probes only `'false'`, `'in_process'` and
`'true'`, although the code itself writes the fourth status `'error'` (in
`revert_status`) and although the adjacent comment says the record is
checked under any state.  Re-ingesting an `input_ref` whose record is in
the `'error'` state therefore finds nothing and creates a second, pending
record for the same `input_ref`. -/
theorem c3_error_state_duplicated :
    ingest_catalog tableErr [("x", "xo")]
      = [⟨"x", "error", none, "false"⟩, ⟨"x", "false", some "xo", "false"⟩] ∧
    ensure_dynamodb_entry tableErr "x" (some "xo")
      = [⟨"x", "error", none, "false"⟩, ⟨"x", "false", some "xo", "false"⟩] ∧
    record_count (ingest_catalog tableErr [("x", "xo")]) "x" = 2 := by
  refine ⟨rfl, rfl, rfl⟩

/-! ## C4 — preservation of the downstream flag -/

/-- C4 counterexample: committing success on a claimed record whose
downstream flag `odoo_loaded` is `'true'` rewrites the flag to `'false'` —
the commit transition does not preserve `downstream_flag`. -/
theorem c4_counterexample :
    (records_for tableClaimed "a").map Item.odoo_loaded = ["true"] ∧
    (records_for (update_dynamodb_success tableClaimed "a" "new") "a").map
      Item.odoo_loaded = ["false"] := by
  refine ⟨rfl, rfl⟩

/-- C4 (amended): the claim transition, the reset sweep and the ingestion
patch preserve `odoo_loaded` (the claim reinserts the scanned value, the
ingestion patch touches only `output_path`), but every commit path —
success, failure and both revert branches — unconditionally rewrites
`odoo_loaded` to `'false'`; it is also initialized to `'false'` on first
creation. -/
theorem c4_downstream_flag (t : Table) (ip out : String) (s : ScanItem)
    (ki kd o : String) :
    get_item (claim_update t s) s.input_path "in_process"
      = some ⟨s.input_path, "in_process", none, s.odoo_loaded⟩ ∧
    (update_item_output t ki kd o).map
        (fun x => (x.input_path, x.ocr_done, x.odoo_loaded))
      = t.map (fun x => (x.input_path, x.ocr_done, x.odoo_loaded)) ∧
    get_item (update_dynamodb_success t ip out) ip "true"
      = some ⟨ip, "true", some out, "false"⟩ ∧
    get_item (update_dynamodb_failure t ip) ip "false"
      = some ⟨ip, "false", none, "false"⟩ ∧
    get_item (revert_status t ip true) ip "error"
      = some ⟨ip, "error", none, "false"⟩ ∧
    get_item (revert_status t ip false) ip "false"
      = some ⟨ip, "false", none, "false"⟩ := by
  refine ⟨?_, ?_, ?_, ?_, ?_, ?_⟩
  · exact get_item_put_item_self _ _
  · simp only [update_item_output, List.map_map]
    apply List.map_congr_left
    intro x _
    by_cases hx : keyMatch ki kd x <;> simp [hx]
  · exact get_item_put_item_self _ _
  · exact get_item_put_item_self _ _
  · exact get_item_put_item_self _ _
  · exact get_item_put_item_self _ _

/-! ## C5 — immutability of `output_ref` -/

/-- C5 counterexample: on a claimed record whose `output_path` is already
the non-empty `"old"`, committing success with `"new"` installs `"new"`
(no equality verification), and both revert transitions (back to pending,
and to the error state) erase the stored `output_path` entirely. -/
theorem c5_counterexample :
    (records_for tableClaimed "a").map Item.output_path = [some "old"] ∧
    (records_for (update_dynamodb_success tableClaimed "a" "new") "a").map
      Item.output_path = [some "new"] ∧
    (records_for (revert_status tableClaimed "a" false) "a").map
      Item.output_path = [none] ∧
    (records_for (revert_status tableClaimed "a" true) "a").map
      Item.output_path = [none] := by
  refine ⟨rfl, rfl, rfl, rfl⟩

/-- C5 (amended): commit-success unconditionally stores the freshly
computed `output_path` (overwriting any stored value rather than verifying
equality), and the claimed-to-pending and claimed-to-failed transitions
erase the stored `output_path`; only the ingestion step respects the
stored value — when the probed record already has an `output_path`, both
ingestion variants leave the ledger unchanged. -/
theorem c5_output_ref (t : Table) (ip out o : String) (x : Item)
    (hfind : find_existing t ip = some x) (hout : x.output_path = some o) :
    get_item (update_dynamodb_success t ip out) ip "true"
      = some ⟨ip, "true", some out, "false"⟩ ∧
    get_item (update_dynamodb_failure t ip) ip "false"
      = some ⟨ip, "false", none, "false"⟩ ∧
    get_item (revert_status t ip true) ip "error"
      = some ⟨ip, "error", none, "false"⟩ ∧
    ensure_dynamodb_entry t ip (some out) = t ∧
    generate_dynamodb_entry t ip out = t := by
  refine ⟨get_item_put_item_self _ _, get_item_put_item_self _ _,
    get_item_put_item_self _ _, ?_, ?_⟩
  · simp [ensure_dynamodb_entry, hfind, hout]
  · simp [generate_dynamodb_entry, hfind, hout]

/-- C5 witness: the amended statement evaluated on a ledger whose done
record for `"a"` already stores `output_path = "old"`. -/
theorem c5_witness :
    get_item (update_dynamodb_success [⟨"a", "true", some "old", "false"⟩] "a" "new")
        "a" "true" = some ⟨"a", "true", some "new", "false"⟩ ∧
    get_item (update_dynamodb_failure [⟨"a", "true", some "old", "false"⟩] "a")
        "a" "false" = some ⟨"a", "false", none, "false"⟩ ∧
    get_item (revert_status [⟨"a", "true", some "old", "false"⟩] "a" true)
        "a" "error" = some ⟨"a", "error", none, "false"⟩ ∧
    ensure_dynamodb_entry [⟨"a", "true", some "old", "false"⟩] "a" (some "new")
      = [⟨"a", "true", some "old", "false"⟩] ∧
    generate_dynamodb_entry [⟨"a", "true", some "old", "false"⟩] "a" "new"
      = [⟨"a", "true", some "old", "false"⟩] :=
  c5_output_ref [⟨"a", "true", some "old", "false"⟩] "a" "new" "old"
    ⟨"a", "true", some "old", "false"⟩ rfl rfl

/-! ## C6 — commit requires the record to be claimed -/

/-- C6 counterexample: committing success for an `input_ref` whose record
was concurrently reset back to pending (so no `in_process` record exists)
is not rejected: the unconditional `delete_item` is a silent no-op, the
`put_item` installs the done record anyway, the ledger ends with two
records for the `input_ref`, and the function signals nothing to the
caller. -/
theorem c6_counterexample :
    update_dynamodb_success tableResetBack "a" "out"
      = [⟨"a", "false", some "p", "true"⟩, ⟨"a", "true", some "out", "false"⟩] ∧
    record_count (update_dynamodb_success tableResetBack "a" "out") "a" = 2 := by
  refine ⟨rfl, rfl⟩

/-- C6 (amended): commit is an unconditional `delete_item` of the
`in_process` key followed by a `put_item` — no `ConditionalUpdate` and no
`Conflict` result exists (store errors are only printed).  Whenever the
ledger holds no `in_process` record for the `input_ref`, the commit still
installs its done record, and every previously present record not keyed
`(input_ref, 'true')` survives alongside it. -/
theorem c6_commit_unconditional (t : Table) (ip out : String)
    (h : get_item t ip "in_process" = none) :
    (⟨ip, "true", some out, "false"⟩ : Item) ∈ update_dynamodb_success t ip out ∧
    ∀ x ∈ t, keyMatch ip "true" x = false → x ∈ update_dynamodb_success t ip out := by
  constructor
  · exact mem_put_item.2 (Or.inr rfl)
  · intro x hx hkey
    have hnp : ∀ z ∈ t, ¬ keyMatch ip "in_process" z := List.find?_eq_none.1 h
    refine mem_put_item.2 (Or.inl ⟨?_, hkey⟩)
    exact mem_delete_item.2 ⟨hx, by simpa using hnp x hx⟩

/-- C6 witness: the amended statement's installed record, on the ledger
whose record for `"a"` is pending (not claimed). -/
theorem c6_witness :
    (⟨"a", "true", some "out", "false"⟩ : Item)
      ∈ update_dynamodb_success tableResetBack "a" "out" :=
  (c6_commit_unconditional tableResetBack "a" "out" rfl).1

/-! ## C7 — the reset sweep -/

theorem mem_reset_step {x : Item} {acc : Table} {it : Item} :
    x ∈ reset_step acc it ↔
      (x ∈ acc ∧ keyMatch it.input_path "in_process" x = false ∧
        keyMatch it.input_path "false" x = false) ∨
      x = ⟨it.input_path, "false", none, it.odoo_loaded⟩ := by
  simp only [reset_step, mem_put_item, mem_delete_item]
  constructor
  · rintro (⟨⟨hx, h1⟩, h2⟩ | rfl)
    · exact Or.inl ⟨hx, h1, h2⟩
    · exact Or.inr rfl
  · rintro (⟨hx, h1, h2⟩ | rfl)
    · exact Or.inl ⟨⟨hx, h1⟩, h2⟩
    · exact Or.inr rfl

theorem fold_reset_no_in_process (l : List Item) (acc : Table)
    (h : ∀ x ∈ acc, x.ocr_done = "in_process" → x ∈ l) :
    ∀ x ∈ l.foldl reset_step acc, x.ocr_done ≠ "in_process" := by
  induction l generalizing acc with
  | nil =>
    intro x hx hod
    exact List.not_mem_nil x (h x hx hod)
  | cons it l ih =>
    intro x hx
    refine ih (reset_step acc it) ?_ x hx
    intro y hy hod
    rcases mem_reset_step.1 hy with ⟨hyacc, h1, _⟩ | rfl
    · rcases List.mem_cons.1 (h y hyacc hod) with rfl | hl
      · exact absurd h1 (by simp [keyMatch, hod])
      · exact hl
    · exact absurd hod (by simp)

theorem fold_reset_keeps (l : List Item) (acc : Table) (x : Item)
    (hx : x ∈ acc) (hip : ∀ it ∈ l, it.input_path ≠ x.input_path) :
    x ∈ l.foldl reset_step acc := by
  induction l generalizing acc with
  | nil => exact hx
  | cons it l ih =>
    refine ih (reset_step acc it) ?_ (fun z hz => hip z (List.mem_cons_of_mem it hz))
    refine mem_reset_step.2 (Or.inl ⟨hx, ?_, ?_⟩) <;>
      simp [keyMatch, (hip it (List.mem_cons_self it l)).symm]

theorem fold_reset_pending (l : List Item) (acc : Table)
    (hpw : l.Pairwise (fun a b => a.input_path ≠ b.input_path)) :
    ∀ it ∈ l,
      (⟨it.input_path, "false", none, it.odoo_loaded⟩ : Item) ∈
        l.foldl reset_step acc := by
  induction l generalizing acc with
  | nil => intro it hit; exact absurd hit (List.not_mem_nil it)
  | cons hd l ih =>
    intro it hit
    rcases List.mem_cons.1 hit with rfl | hl
    · show (⟨it.input_path, "false", none, it.odoo_loaded⟩ : Item) ∈
        l.foldl reset_step (reset_step acc it)
      refine fold_reset_keeps l (reset_step acc it) _
        (mem_reset_step.2 (Or.inr rfl)) ?_
      intro z hz
      exact fun hzip => (List.pairwise_cons.1 hpw).1 z hz hzip.symm
    · exact ih (reset_step acc hd) (List.pairwise_cons.1 hpw).2 it hl

/-- The record every `in_process` record becomes after the reset sweep. -/
def reset_image (x : Item) : Item :=
  ⟨x.input_path, "false", none, x.odoo_loaded⟩

/-- C7 counterexample: the reset of the source applies no staleness
threshold (the ledger stores no `claimed_at` attribute at all), so a
record claimed this very moment — which the staleness classification of
the spec marks as young and therefore to be left unchanged, as
`resetSpec` with the nothing-is-stale classification shows — is
nevertheless moved back to pending (and its `output_path` erased). -/
theorem c7_counterexample :
    resetSpec (fun _ => false) tableClaimed = tableClaimed ∧
    reset_ocr_done_status tableClaimed = [⟨"a", "false", none, "true"⟩] := by
  refine ⟨rfl, rfl⟩

/-- C7 (amended): on a ledger with at most one record per `input_ref`, the
reset sweep moves every claimed record back to pending regardless of any
staleness threshold (none exists; the record keeps `odoo_loaded` but loses
its `output_path`), leaves every record in any other status unchanged, and
a second reset over the result changes nothing. -/
theorem c7_reset_all_claimed (t : Table)
    (hn : (t.map Item.input_path).Nodup) :
    (∀ x ∈ reset_ocr_done_status t, x.ocr_done ≠ "in_process") ∧
    (∀ x ∈ t, x.ocr_done = "in_process" →
      reset_image x ∈ reset_ocr_done_status t) ∧
    (∀ x ∈ t, x.ocr_done ≠ "in_process" → x ∈ reset_ocr_done_status t) ∧
    reset_ocr_done_status (reset_ocr_done_status t) = reset_ocr_done_status t := by
  have hinj : ∀ x ∈ t, ∀ y ∈ t, x.input_path = y.input_path → x = y :=
    List.inj_on_of_nodup_map hn
  have hscan : ∀ x ∈ t, x.ocr_done = "in_process" → x ∈ scan_in_process t := by
    intro x hx hod
    exact List.mem_filter.2 ⟨hx, by simp [hod]⟩
  have hnone : ∀ x ∈ reset_ocr_done_status t, x.ocr_done ≠ "in_process" :=
    fold_reset_no_in_process (scan_in_process t) t hscan
  refine ⟨hnone, ?_, ?_, ?_⟩
  · intro x hx hod
    have hpw : (scan_in_process t).Pairwise
        (fun a b => a.input_path ≠ b.input_path) := by
      have hsub : List.Sublist ((scan_in_process t).map Item.input_path)
          (t.map Item.input_path) :=
        (List.filter_sublist t).map Item.input_path
      have := hn.sublist hsub
      exact (List.pairwise_map.1 this)
    exact fold_reset_pending (scan_in_process t) t hpw x (hscan x hx hod)
  · intro x hx hod
    refine fold_reset_keeps (scan_in_process t) t x hx ?_
    intro it hit hip
    have hitt : it ∈ t := (List.mem_filter.1 hit).1
    have hitod : it.ocr_done = "in_process" := by
      simpa using (List.mem_filter.1 hit).2
    exact hod (by rw [← hinj x hx it hitt hip.symm] at hitod; exact hitod)
  · have hempty : scan_in_process (reset_ocr_done_status t) = [] := by
      simp only [scan_in_process]
      rw [List.filter_eq_nil_iff]
      intro x hx
      simp [hnone x hx]
    show (scan_in_process (reset_ocr_done_status t)).foldl reset_step
        (reset_ocr_done_status t) = reset_ocr_done_status t
    rw [hempty]
    rfl

/-- C7 witness: the amended statement's reinserted pending record on the
one-record claimed ledger. -/
theorem c7_witness :
    reset_image ⟨"a", "in_process", some "old", "true"⟩
      ∈ reset_ocr_done_status tableClaimed :=
  (c7_reset_all_claimed tableClaimed (by decide)).2.1
    ⟨"a", "in_process", some "old", "true"⟩ (by decide) rfl

/-! ## C8 — milestone notifications -/

/-- How many more notifications a flag can still let through: one while the
flag is unset, none once it is set. -/
def flagDebt (b : Bool) : Nat := if b then 0 else 1

theorem count_fire_if_self (c f : Bool) (msg : String) :
    ((fire_if c f msg).2).count msg + flagDebt (fire_if c f msg).1
      ≤ flagDebt f := by
  cases c <;> cases f <;> simp [fire_if, flagDebt]

theorem count_fire_if_ne (c f : Bool) (msg m : String) (h : m ≠ msg) :
    ((fire_if c f msg).2).count m = 0 := by
  cases c <;> cases f <;> simp [fire_if, List.count_cons, h]

theorem fire_if_not_fired (f : Bool) (msg : String) :
    (fire_if false f msg) = (f, []) := by
  simp [fire_if]

theorem check_step_counts (s : MilestoneFlags) (c t : Nat) :
    ((check_and_send_milestone_email s c t).2.count "milestone:20pct"
        + flagDebt (check_and_send_milestone_email s c t).1.sent20
      ≤ flagDebt s.sent20) ∧
    ((check_and_send_milestone_email s c t).2.count "milestone:40pct"
        + flagDebt (check_and_send_milestone_email s c t).1.sent40
      ≤ flagDebt s.sent40) ∧
    ((check_and_send_milestone_email s c t).2.count "milestone:80pct"
        + flagDebt (check_and_send_milestone_email s c t).1.sent80
      ≤ flagDebt s.sent80) ∧
    ((check_and_send_milestone_email s c t).2.count "milestone:100files"
        + (check_and_send_milestone_email s c t).2.count "milestone:100pct"
        + flagDebt (check_and_send_milestone_email s c t).1.sent100
      ≤ flagDebt s.sent100) := by
  simp only [check_and_send_milestone_email]
  split
  · simp
  · refine ⟨?_, ?_, ?_, ?_⟩ <;> simp only [List.count_append]
    · have ha := count_fire_if_ne (decide (100 ≤ c)) s.sent100
        "milestone:100files" "milestone:20pct" (by decide)
      have h40 := count_fire_if_ne (decide (40 ≤ c * 100 / t)) s.sent40
        "milestone:40pct" "milestone:20pct" (by decide)
      have h80 := count_fire_if_ne (decide (80 ≤ c * 100 / t)) s.sent80
        "milestone:80pct" "milestone:20pct" (by decide)
      have h100 := count_fire_if_ne (decide (100 ≤ c * 100 / t))
        (fire_if (decide (100 ≤ c)) s.sent100 "milestone:100files").1
        "milestone:100pct" "milestone:20pct" (by decide)
      have hs := count_fire_if_self (decide (20 ≤ c * 100 / t)) s.sent20
        "milestone:20pct"
      omega
    · have ha := count_fire_if_ne (decide (100 ≤ c)) s.sent100
        "milestone:100files" "milestone:40pct" (by decide)
      have h20 := count_fire_if_ne (decide (20 ≤ c * 100 / t)) s.sent20
        "milestone:20pct" "milestone:40pct" (by decide)
      have h80 := count_fire_if_ne (decide (80 ≤ c * 100 / t)) s.sent80
        "milestone:80pct" "milestone:40pct" (by decide)
      have h100 := count_fire_if_ne (decide (100 ≤ c * 100 / t))
        (fire_if (decide (100 ≤ c)) s.sent100 "milestone:100files").1
        "milestone:100pct" "milestone:40pct" (by decide)
      have hs := count_fire_if_self (decide (40 ≤ c * 100 / t)) s.sent40
        "milestone:40pct"
      omega
    · have ha := count_fire_if_ne (decide (100 ≤ c)) s.sent100
        "milestone:100files" "milestone:80pct" (by decide)
      have h20 := count_fire_if_ne (decide (20 ≤ c * 100 / t)) s.sent20
        "milestone:20pct" "milestone:80pct" (by decide)
      have h40 := count_fire_if_ne (decide (40 ≤ c * 100 / t)) s.sent40
        "milestone:40pct" "milestone:80pct" (by decide)
      have h100 := count_fire_if_ne (decide (100 ≤ c * 100 / t))
        (fire_if (decide (100 ≤ c)) s.sent100 "milestone:100files").1
        "milestone:100pct" "milestone:80pct" (by decide)
      have hs := count_fire_if_self (decide (80 ≤ c * 100 / t)) s.sent80
        "milestone:80pct"
      omega
    · have h20a := count_fire_if_ne (decide (20 ≤ c * 100 / t)) s.sent20
        "milestone:20pct" "milestone:100files" (by decide)
      have h40a := count_fire_if_ne (decide (40 ≤ c * 100 / t)) s.sent40
        "milestone:40pct" "milestone:100files" (by decide)
      have h80a := count_fire_if_ne (decide (80 ≤ c * 100 / t)) s.sent80
        "milestone:80pct" "milestone:100files" (by decide)
      have h20b := count_fire_if_ne (decide (20 ≤ c * 100 / t)) s.sent20
        "milestone:20pct" "milestone:100pct" (by decide)
      have h40b := count_fire_if_ne (decide (40 ≤ c * 100 / t)) s.sent40
        "milestone:40pct" "milestone:100pct" (by decide)
      have h80b := count_fire_if_ne (decide (80 ≤ c * 100 / t)) s.sent80
        "milestone:80pct" "milestone:100pct" (by decide)
      have hmb := count_fire_if_ne (decide (100 ≤ c * 100 / t))
        (fire_if (decide (100 ≤ c)) s.sent100 "milestone:100files").1
        "milestone:100pct" "milestone:100files" (by decide)
      have hab := count_fire_if_ne (decide (100 ≤ c)) s.sent100
        "milestone:100files" "milestone:100pct" (by decide)
      have hsa := count_fire_if_self (decide (100 ≤ c)) s.sent100
        "milestone:100files"
      have hsb := count_fire_if_self (decide (100 ≤ c * 100 / t))
        (fire_if (decide (100 ≤ c)) s.sent100 "milestone:100files").1
        "milestone:100pct"
      omega

theorem run_polls_counts (polls : List (Nat × Nat)) (s : MilestoneFlags) :
    ((run_polls s polls).2.count "milestone:20pct" ≤ flagDebt s.sent20) ∧
    ((run_polls s polls).2.count "milestone:40pct" ≤ flagDebt s.sent40) ∧
    ((run_polls s polls).2.count "milestone:80pct" ≤ flagDebt s.sent80) ∧
    ((run_polls s polls).2.count "milestone:100files"
        + (run_polls s polls).2.count "milestone:100pct"
      ≤ flagDebt s.sent100) := by
  induction polls generalizing s with
  | nil => simp [run_polls]
  | cons c rest ih =>
    simp only [run_polls, List.count_append]
    have hstep := check_step_counts s c.1 c.2
    have hrest := ih (check_and_send_milestone_email s c.1 c.2).1
    refine ⟨?_, ?_, ?_, ?_⟩ <;> omega

/-- C8 counterexample: polled twice at a done-count that has crossed 50%
(1 of 2 done), the process emits only the 20% and 40% notifications — no
50% notification is ever emitted (it is not among the configured keys 100,
20, 40, 80), so it is not emitted exactly once; moreover the 100%
milestone, although configured and reached for the first time at the
second poll of the second run shown, is not fired there because the
absolute 100-records milestone already consumed the shared
`milestones_sent[100]` flag of the duplicated dictionary key. -/
theorem c8_counterexample :
    (run_polls initFlags [(1, 2), (1, 2)]).2
      = ["milestone:20pct", "milestone:40pct"] ∧
    (run_polls initFlags [(100, 1000), (1000, 1000)]).2
      = ["milestone:100files", "milestone:20pct", "milestone:40pct",
          "milestone:80pct"] := by
  refine ⟨rfl, rfl⟩

/-- C8 (amended): the configured thresholds are 20%, 40%, 80% and 100%
plus an absolute 100-records milestone, the latter two sharing the single
flag of the duplicated dictionary key 100; within one process run each of
the 20/40/80 notifications fires at most once, the two 100-milestones fire
at most once combined (whichever fires first suppresses the other), and a
threshold whose flag is still unset fires on the first poll whose progress
reaches it (shown for the 20% threshold); no 50% threshold exists. -/
theorem c8_milestones_once :
    (∀ polls : List (Nat × Nat),
      (run_polls initFlags polls).2.count "milestone:20pct" ≤ 1 ∧
      (run_polls initFlags polls).2.count "milestone:40pct" ≤ 1 ∧
      (run_polls initFlags polls).2.count "milestone:80pct" ≤ 1 ∧
      (run_polls initFlags polls).2.count "milestone:100files"
          + (run_polls initFlags polls).2.count "milestone:100pct" ≤ 1) ∧
    (∀ (s : MilestoneFlags) (c t : Nat), t ≠ 0 → s.sent20 = false →
      20 ≤ c * 100 / t →
      "milestone:20pct" ∈ (check_and_send_milestone_email s c t).2) := by
  constructor
  · intro polls
    have := run_polls_counts polls initFlags
    simpa [initFlags, flagDebt] using this
  · intro s c t h0 hflag hp
    simp only [check_and_send_milestone_email, if_neg h0]
    simp [fire_if, hflag, hp, List.mem_append]

/-- C8 witness: the first-reach part of the amended statement, evaluated at
the poll `(1, 2)` from the initial flags. -/
theorem c8_witness :
    "milestone:20pct" ∈ (check_and_send_milestone_email initFlags 1 2).2 :=
  c8_milestones_once.2 initFlags 1 2 (by decide) rfl (by decide)

/-! ## C9 — job failure and the continuous loops -/

/-- C9: evaluating the two continuous loops on the failing trace
`[jobError, success]` (one job fails, a further job is available).
`run_continuous_processing` of main_run.py records the error and claims the
next job (one success, one error after two iterations), but
`process_continuous` of full_process.py leaves its loop at the first
falsy result — and `None`, which `process_single_pdf`'s own comment says
means "error, continue with the next file", is falsy in Python — so it
stops after one iteration with nothing processed, never reaching the
available job. -/
theorem c9_single_error_stops_process_continuous :
    process_continuous [.jobError, .success] none 0 0 = (0, 1) ∧
    run_continuous_processing [.jobError, .success] (fun _ => 1) 0 0 0 0 = (1, 1) := by
  refine ⟨rfl, rfl⟩

/-! ## C10 — the `apply_ocr` return contract -/

/-- C10: every pair `(output_path, error_occurred)` that `apply_ocr`
returns has a non-`None` output path exactly when `error_occurred` is
false: every error return is `(None, True)` and every success return —
including the historic copy and the already-has-OCR / Tagged-PDF copy
branches — carries a real output path and `False`. -/
theorem c10_apply_ocr_output_iff_no_error (env : OcrEnv) (p : String)
    (r : Option String × Bool) (h : apply_ocr env p = some r) :
    r.1.isSome = true ↔ r.2 = false := by
  obtain ⟨fe, hist, cp, oc⟩ := env
  obtain ⟨ro, re⟩ := r
  cases fe <;> cases hist <;> cases cp <;> cases oc <;>
    simp [apply_ocr] at h <;> rcases h with ⟨rfl, rfl⟩ <;> simp

/-- C10 witness: the contract evaluated on the plain successful-OCR branch.
-/
theorem c10_witness :
    (some (ocr_output_path "dir/x.pdf")).isSome = true ↔ false = false :=
  c10_apply_ocr_output_iff_no_error ⟨true, false, true, .ok⟩ "dir/x.pdf"
    (some (ocr_output_path "dir/x.pdf"), false) rfl

end OcrSpot
